import Mathlib

/-!
Verification development for the `memfd-exec` library: a shallow embedding of
the process-creation and inter-process-I/O engine (src/src/executable.rs,
src/src/process.rs, src/src/stdio.rs, src/src/anon_pipe.rs, src/src/child.rs)
together with theorems settling the specification claims.

Byte strings are modelled as `List Nat` (each element a byte value), raw OS
integers (`c_int`, errno values, wait statuses) as `Int`, and OS calls whose
results the library merely consumes (waitpid, kill, read on the control pipe,
poll) as explicit oracle parameters, so every definition is executable.
-/

namespace MemfdExec

/-! ## Process and ExitStatus (src/src/process.rs) -/

/-- `ExitStatus(c_int)`: opaque wrapper around a raw wait-status word
(src/src/process.rs line 67). -/
structure ExitStatus where
  raw : Int
deriving DecidableEq, Repr

/-- `Process { pid, status }` (src/src/process.rs lines 12-15): a pid together
with the lazily cached exit status (`None` until the first successful reap). -/
structure Process where
  pid : Int
  status : Option ExitStatus
deriving DecidableEq, Repr

/-- Result of one `Process` operation paired with how many OS wait calls the
operation issued (0 when it was answered from the cache). -/
structure WaitStep (α : Type) where
  proc : Process
  result : Except Int α
  osWaitCalls : Nat
deriving Repr

/-- `Process::wait` (src/src/process.rs lines 41-49).  If a status is cached it
is returned with no OS call; otherwise `cvt_r(|| waitpid(pid, &status, 0))` is
issued — `os` is the post-EINTR-retry outcome of that call (`.error e` for a
non-EINTR failure, `.ok st` for the reaped raw status) — and on success the
status is cached and returned. -/
def Process.wait (p : Process) (os : Except Int Int) : WaitStep ExitStatus :=
  match p.status with
  | some st => { proc := p, result := .ok st, osWaitCalls := 0 }
  | none =>
    match os with
    | .error e => { proc := p, result := .error e, osWaitCalls := 1 }
    | .ok st =>
      { proc := { p with status := some ⟨st⟩ }
        result := .ok ⟨st⟩
        osWaitCalls := 1 }

/-- `Process::try_wait` (src/src/process.rs lines 51-63).  If a status is
cached it is returned immediately with no OS call; otherwise a single
`waitpid(pid, &status, WNOHANG)` is issued — `os` is its outcome, `.ok none`
meaning the nonblocking check returned pid 0 (child not yet exited). -/
def Process.try_wait (p : Process) (os : Except Int (Option Int)) :
    WaitStep (Option ExitStatus) :=
  match p.status with
  | some st => { proc := p, result := .ok (some st), osWaitCalls := 0 }
  | none =>
    match os with
    | .error e => { proc := p, result := .error e, osWaitCalls := 1 }
    | .ok none => { proc := p, result := .ok none, osWaitCalls := 1 }
    | .ok (some st) =>
      { proc := { p with status := some ⟨st⟩ }
        result := .ok (some ⟨st⟩)
        osWaitCalls := 1 }

/-- Errors `Process::kill` can report. -/
inductive KillError
  /-- `Error::new(InvalidInput, "invalid argument: can't kill an exited process")`. -/
  | cantKillExited
  /-- OS failure from `libc::kill`, carrying the errno. -/
  | os (errno : Int)
deriving DecidableEq, Repr

/-- `Process::kill` (src/src/process.rs lines 27-39): the returned value paired
with whether a signal send (`libc::kill(pid, SIGKILL)`) was attempted at all. -/
structure KillStep where
  result : Except KillError Unit
  signalSent : Bool
deriving Repr

/-- `Process::kill` (src/src/process.rs lines 27-39).  If a status is already
cached the call fails with the invalid-input error without touching the pid;
otherwise `cvt(kill(pid, SIGKILL))` is issued — `os` is its outcome — and any
OS failure is surfaced. -/
def Process.kill (p : Process) (os : Except Int Unit) : KillStep :=
  match p.status with
  | some _ => { result := .error .cantKillExited, signalSent := false }
  | none =>
    match os with
    | .error e => { result := .error (.os e), signalSent := true }
    | .ok _ => { result := .ok (), signalSent := true }

/-- Rust's `c_int::try_from` applied to a value that is already a `c_int`
(src/src/process.rs line 90): resolved through the reflexive
`impl From<c_int> for c_int`, whose induced `TryFrom` has error type
`Infallible` — the conversion always succeeds. -/
def cIntTryFromCInt (x : Int) : Except Empty Int := .ok x

/-- `ExitStatus::exit_ok` (src/src/process.rs lines 84-98): matches on
`c_int::try_from(self.0)`; the `Ok(failure)` arm builds
`Error::new(Other, format!("process exited with status {}", failure))`
(modelled as `.error failure`, carrying the status word the message embeds),
and the `Err(_)` arm returns `Ok(())`. -/
def ExitStatus.exit_ok (s : ExitStatus) : Except Int Unit :=
  match cIntTryFromCInt s.raw with
  | .ok failure => .error failure
  | .error _ => .ok ()

/-! ## Builder state: os2c, CommandEnv, MemFdExecutable
(src/src/executable.rs, src/src/command_env.rs) -/

/-- The byte string `"<string-with-nul>"` substituted by `os2c` when
`CString::new` rejects input containing an embedded NUL
(src/src/executable.rs line 105). -/
def NUL_PLACEHOLDER : List Nat :=
  [60, 115, 116, 114, 105, 110, 103, 45, 119, 105, 116, 104, 45, 110, 117, 108, 62]

/-- `os2c` (src/src/executable.rs lines 102-107): `CString::new(s)` fails
exactly when `s` contains a NUL byte, in which case the `saw_nul` flag is set
and the placeholder string is produced; otherwise `s` passes through and the
flag is untouched. -/
def os2c (s : List Nat) (sawNul : Bool) : List Nat × Bool :=
  if s.contains 0 then (NUL_PLACEHOLDER, true) else (s, sawNul)

/-- Insert-or-replace on an association list; models `BTreeMap::insert`
(entry order is irrelevant to every property stated below). -/
def assocSet (m : List (List Nat × List Nat)) (k v : List Nat) :
    List (List Nat × List Nat) :=
  if m.any (fun kv => kv.1 == k) then
    m.map (fun kv => if kv.1 == k then (k, v) else kv)
  else
    m ++ [(k, v)]

/-- Removal on an association list; models `BTreeMap::remove`. -/
def assocRemove (m : List (List Nat × List Nat)) (k : List Nat) :
    List (List Nat × List Nat) :=
  m.filter (fun kv => kv.1 != k)

/-- `CommandEnv` (src/src/command_env.rs lines 8-13): a set of changes to an
environment — a cleared flag, a PATH-touched flag, and the variable diff
(`None` meaning delete).  The `BTreeMap` is modelled as an association list. -/
structure CommandEnv where
  clear : Bool
  saw_path : Bool
  vars : List (List Nat × Option (List Nat))
deriving DecidableEq, Repr

/-- `CommandEnv::default` (src/src/command_env.rs lines 15-23). -/
def CommandEnv.init : CommandEnv :=
  { clear := false, saw_path := false, vars := [] }

/-- `CommandEnv::is_unchanged` (src/src/command_env.rs lines 44-46). -/
def CommandEnv.is_unchanged (e : CommandEnv) : Bool :=
  !e.clear && e.vars.isEmpty

/-- The byte string `"PATH"`. -/
def PATH_BYTES : List Nat :=
  [80, 65, 84, 72]

/-- Insert-or-replace on the diff's association list; models
`BTreeMap::insert` on `vars : BTreeMap<OsString, Option<OsString>>` (entry
order is irrelevant to every property stated below). -/
def assocSetOpt (m : List (List Nat × Option (List Nat))) (k : List Nat)
    (v : Option (List Nat)) : List (List Nat × Option (List Nat)) :=
  if m.any (fun kv => kv.1 == k) then
    m.map (fun kv => if kv.1 == k then (k, v) else kv)
  else
    m ++ [(k, v)]

/-- `CommandEnv::set` (src/src/command_env.rs lines 57-61):
`maybe_saw_path(&key)` then `vars.insert(key, Some(value))`. -/
def CommandEnv.set (e : CommandEnv) (k v : List Nat) : CommandEnv :=
  { e with
    saw_path := e.saw_path || (k == PATH_BYTES)
    vars := assocSetOpt e.vars k (some v) }

/-- `CommandEnv::capture` (src/src/command_env.rs lines 27-42): start from the
ambient process environment (`base`, the model's stand-in for `env::vars_os()`)
unless cleared, then apply each recorded change. -/
def CommandEnv.capture (e : CommandEnv) (base : List (List Nat × List Nat)) :
    List (List Nat × List Nat) :=
  let start := if e.clear then [] else base
  e.vars.foldl
    (fun m kv =>
      match kv.2 with
      | some v => assocSet m kv.1 v
      | none => assocRemove m kv.1)
    start

/-- `CommandEnv::capture_if_changed` (src/src/command_env.rs lines 48-54). -/
def CommandEnv.capture_if_changed (e : CommandEnv)
    (base : List (List Nat × List Nat)) :
    Option (List (List Nat × List Nat)) :=
  if e.is_unchanged then none else some (e.capture base)

/-- `construct_envp` (src/src/executable.rs lines 109-126): serialize each
captured pair as `NAME=value` (61 is the byte of the equals sign) in order; an
entry in which `CString::new` finds a NUL is skipped and the `saw_nul` flag is
set, and the loop continues. -/
def construct_envp (env : List (List Nat × List Nat)) (sawNul : Bool) :
    List (List Nat) × Bool :=
  match env with
  | [] => ([], sawNul)
  | kv :: rest =>
    let entry := kv.1 ++ [61] ++ kv.2
    if entry.contains 0 then
      construct_envp rest true
    else
      let r := construct_envp rest sawNul
      (entry :: r.1, r.2)

/-- The stdio configuration `Stdio` (src/src/stdio.rs lines 31-36), a closed
sum: inherit the slot, route to the null device, create a pipe, or use an
existing descriptor. -/
inductive StdioCfg
  | inherit
  | null
  | makePipe
  | fd (raw : Nat)
deriving DecidableEq, Repr

/-- `MemFdExecutable` (src/src/executable.rs lines 70-95): the executable
bytes, the program name (`CString`), the argument list without and with the
program name (`args` / `argv`), the environment diff, the optional working
directory, the three stdio configurations, and the `saw_nul` flag. -/
structure Cmd where
  code : List Nat
  program : List Nat
  args : List (List Nat)
  argv : List (List Nat)
  env : CommandEnv
  cwd : Option (List Nat)
  stdin_cfg : Option StdioCfg
  stdout_cfg : Option StdioCfg
  stderr_cfg : Option StdioCfg
  saw_nul : Bool
deriving DecidableEq, Repr

/-- `MemFdExecutable::new` (src/src/executable.rs lines 151-166). -/
def Cmd.new (name : List Nat) (code : List Nat) : Cmd :=
  let r := os2c name false
  { code := code
    program := r.1
    args := [r.1]
    argv := [r.1]
    env := CommandEnv.init
    cwd := none
    stdin_cfg := none
    stdout_cfg := none
    stderr_cfg := none
    saw_nul := r.2 }

/-- `MemFdExecutable::arg` (src/src/executable.rs lines 169-174): push the
converted argument onto both `argv` and `args`. -/
def Cmd.arg (c : Cmd) (a : List Nat) : Cmd :=
  let r := os2c a c.saw_nul
  { c with argv := c.argv ++ [r.1], args := c.args ++ [r.1], saw_nul := r.2 }

/-- `MemFdExecutable::env` (src/src/executable.rs lines 189-196): record an
environment variable in the diff via `CommandEnv::set`. -/
def Cmd.env_set (c : Cmd) (k v : List Nat) : Cmd :=
  { c with env := c.env.set k v }

/-- `MemFdExecutable::cwd` (src/src/executable.rs lines 224-227): set the
working directory, converting it through `os2c`. -/
def Cmd.with_cwd (c : Cmd) (dir : List Nat) : Cmd :=
  let r := os2c dir c.saw_nul
  { c with cwd := some r.1, saw_nul := r.2 }

/-- `MemFdExecutable::set_program` (src/src/executable.rs lines 403-407):
overwrite element 0 of `argv` and of `args` with the converted name. -/
def Cmd.set_program (c : Cmd) (name : List Nat) : Cmd :=
  let r := os2c name c.saw_nul
  { c with argv := c.argv.set 0 r.1, args := c.args.set 0 r.1, saw_nul := r.2 }

/-- `MemFdExecutable::get_argv` (src/src/executable.rs lines 481-483). -/
def Cmd.get_argv (c : Cmd) : List (List Nat) :=
  c.argv

/-- `MemFdExecutable::get_program_cstr` (src/src/executable.rs lines 476-478):
returns the stored `program` field. -/
def Cmd.get_program_cstr (c : Cmd) : List Nat :=
  c.program

/-- `MemFdExecutable::program_is_path` (src/src/executable.rs lines 492-494):
whether the stored program name contains a slash byte (47). -/
def Cmd.program_is_path (c : Cmd) : Bool :=
  c.program.contains 47

/-- `MemFdExecutable::capture_env` (src/src/executable.rs lines 448-451):
`capture_if_changed` followed by `construct_envp`, which may set `saw_nul`.
Returns the optional envp and the updated flag. -/
def Cmd.capture_env (c : Cmd) (base : List (List Nat × List Nat)) :
    Option (List (List Nat)) × Bool :=
  match c.env.capture_if_changed base with
  | none => (none, c.saw_nul)
  | some env =>
    let r := construct_envp env c.saw_nul
    (some r.1, r.2)

/-! ## The spawn protocol (src/src/executable.rs, `MemFdExecutable::spawn`) -/

/-- Failures `spawn` could report before the fork. -/
inductive SpawnErr
  /-- An OS error from `setup_io` or `anon_pipe`, carrying the errno. -/
  | os (errno : Int)
  /-- A malformed-input (embedded NUL) report. -/
  | malformedInput
deriving DecidableEq, Repr

/-- Outcome of the pre-fork phase of `spawn`. -/
inductive PreFork
  /-- All pre-fork steps passed; `spawn` commits to `do_fork`, carrying the
  captured envp. -/
  | proceedToFork (envp : Option (List (List Nat)))
  /-- `spawn` returned an error before forking. -/
  | fail (e : SpawnErr)
deriving DecidableEq, Repr

/-- The pre-fork phase of `MemFdExecutable::spawn` (src/src/executable.rs
lines 317-343): capture the environment, then run
`if self.saw_nul() { /* TODO: Need err? */ }` — the branch body is empty, so
the flag is read but no error is reported — then `setup_io(..)?` and
`anon_pipe()?` (whose OS outcomes are the `setupIoRes` and `pipeRes` oracle
parameters), after which control reaches `do_fork`. -/
def spawnPreFork (c : Cmd) (base : List (List Nat × List Nat))
    (setupIoRes : Except Int Unit) (pipeRes : Except Int Unit) : PreFork :=
  let captured := c.capture_env base
  match setupIoRes with
  | .error e => .fail (.os e)
  | .ok _ =>
    match pipeRes with
    | .error e => .fail (.os e)
    | .ok _ => .proceedToFork captured.1

/-- Outcome of the `exec` method (src/src/executable.rs lines 459-473) up to
its NUL gate: unlike `spawn`, `exec` runs
`if self.saw_nul() { return Error::new(InvalidInput, "nul byte found in provided data"); }`
after capturing the environment. -/
inductive ExecGate
  /-- `Error::new(InvalidInput, "nul byte found in provided data")`. -/
  | nulError
  /-- The gate passed; `exec` proceeds to `setup_io` / `do_exec` with the
  captured envp. -/
  | proceed (envp : Option (List (List Nat)))
deriving DecidableEq, Repr

/-- The NUL gate of `MemFdExecutable::exec` (src/src/executable.rs
lines 459-464). -/
def execNulGate (c : Cmd) (base : List (List Nat × List Nat)) : ExecGate :=
  let captured := c.capture_env base
  if captured.2 then .nulError else .proceed captured.1

/-- `CLOEXEC_MSG_FOOTER = *b"NOEX"` (src/src/executable.rs line 320). -/
def CLOEXEC_MSG_FOOTER : List Nat :=
  [78, 79, 69, 88]

/-- `i32::from_be_bytes` on a 4-byte big-endian buffer
(src/src/executable.rs line 369). -/
def i32FromBeBytes (bs : List Nat) : Int :=
  let v : Int := bs.foldl (fun a b => a * 256 + (b : Int)) 0
  if v < 2 ^ 31 then v else v - 2 ^ 32

/-- How the child half of `spawn` terminates after `do_exec` returns an error
(src/src/executable.rs lines 345-349): the recorded control-pipe writes the
child performed before dying, and whether it died through `panic!`. -/
structure ChildTermination where
  pipeWrites : List (List Nat)
  panicked : Bool
deriving DecidableEq, Repr

/-- The child path of `spawn` when `do_exec` fails (src/src/executable.rs
lines 345-349): `drop(input)` closes the read end, and the
`let Err(err) = self.do_exec(theirs, envp) else ..` error is handed straight to
`panic!("failed to exec: {}", err)` — no write to the control pipe's write end
is performed on this path. -/
def spawnChildOnExecError (_errno : Int) : ChildTermination :=
  { pipeWrites := [], panicked := true }

/-- One result of `input.read(&mut bytes)` on the control pipe as observed by
the parent loop (src/src/executable.rs lines 359-384). -/
inductive ControlRead
  /-- `Ok(n)` with the bytes read. -/
  | ok (bytes : List Nat)
  /-- `Err(e)` with `e.kind() == Interrupted`. -/
  | interrupted
  /-- Any other `Err(e)`, carrying the errno. -/
  | err (errno : Int)
deriving DecidableEq, Repr

/-- Outcome of the parent half of `spawn` after the fork.  Each constructor
records whether the child was reaped (`p.wait()` issued) before `spawn`
finished that way. -/
inductive SpawnOutcome
  /-- `Ok(Child::new(p, ours))`: EOF on the control pipe. -/
  | success
  /-- `Err(Error::from_raw_os_error(errno))` after reaping: an 8-byte message
  with a matching footer. -/
  | execError (errno : Int) (reaped : Bool)
  /-- The `assert_eq!(CLOEXEC_MSG_FOOTER, footer, ..)` panic. -/
  | panicFooterMismatch (reaped : Bool)
  /-- The `panic!("short read on the CLOEXEC pipe")` arm. -/
  | panicShortRead (reaped : Bool)
  /-- The `panic!("the CLOEXEC pipe failed: ..")` arm. -/
  | panicPipeError (errno : Int) (reaped : Bool)
  /-- The supplied read results were exhausted while the loop kept retrying. -/
  | loops
deriving DecidableEq, Repr

/-- The parent's control-pipe read loop (src/src/executable.rs lines 359-384):
`Ok(0)` returns the child handle; `Ok(8)` first runs
`assert_eq!(CLOEXEC_MSG_FOOTER, footer, ..)` — panicking, without any
`p.wait()`, on a mismatch — and otherwise reaps the child and returns the
decoded OS error; `Err(Interrupted)` retries; any other `Err` and any other
byte count reap the child and panic. -/
def parentControlLoop : List ControlRead → SpawnOutcome
  | [] => .loops
  | .ok bytes :: _ =>
    if bytes.length = 0 then
      .success
    else if bytes.length = 8 then
      let footer := bytes.drop 4
      if footer = CLOEXEC_MSG_FOOTER then
        .execError (i32FromBeBytes (bytes.take 4)) true
      else
        .panicFooterMismatch false
    else
      .panicShortRead true
  | .interrupted :: rest => parentControlLoop rest
  | .err e :: _ => .panicPipeError e true

/-! ## Stdio routing: the Null branch of `Stdio::to_child_stdio`
(src/src/stdio.rs lines 39-81) -/

/-- The read/write access flags of a `std::fs::OpenOptions`. -/
structure OpenOpts where
  readAccess : Bool
  writeAccess : Bool
deriving DecidableEq, Repr

/-- The `OpenOptions` value the Null branch constructs
(src/src/stdio.rs lines 69-71): `opts.read(readable); opts.write(!readable)`. -/
def nullBranchOptsBuilt (readable : Bool) : OpenOpts :=
  { readAccess := readable, writeAccess := !readable }

/-- The access mode of `std::fs::File::open`: read-only. -/
def fileOpenAccess : OpenOpts :=
  { readAccess := true, writeAccess := false }

/-- The access mode actually used to open the null device
(src/src/stdio.rs line 74): the branch calls `File::open(path)?` — not
`opts.open(path)` — so the `opts` value it built is discarded and the open is
read-only regardless of `readable`. -/
def nullBranchOptsUsed (_readable : Bool) : OpenOpts :=
  fileOpenAccess

/-- An event on the process's descriptor table. -/
inductive FdEvent
  | openEv (fd : Nat)
  | closeEv (fd : Nat)
deriving DecidableEq, Repr

/-- A model of the process's descriptor table: the next number the kernel will
hand out, the currently open numbers, and the event log. -/
structure FdWorld where
  nextFd : Nat
  openFds : List Nat
  events : List FdEvent
deriving DecidableEq, Repr

/-- Kernel fd allocation: a successful `open` (here of the null device)
returns a fresh descriptor number. -/
def FdWorld.openNull (w : FdWorld) (_access : OpenOpts) : Nat × FdWorld :=
  (w.nextFd,
   { nextFd := w.nextFd + 1
     openFds := w.openFds ++ [w.nextFd]
     events := w.events ++ [.openEv w.nextFd] })

/-- `close(fd)`: records the event and reports whether `fd` was actually open
(a second close of the same number is the double-close the kernel rejects or,
worse, applies to an unrelated reopened descriptor). -/
def FdWorld.closeFd (w : FdWorld) (fd : Nat) : Bool × FdWorld :=
  (w.openFds.contains fd,
   { w with
     openFds := w.openFds.erase fd
     events := w.events ++ [.closeEv fd] })

/-- `ChildStdio` (src/src/stdio.rs lines 25-29). -/
inductive ChildStdioCfg
  | inherit
  | explicit (fd : Nat)
  | owned (fd : Nat)
deriving DecidableEq, Repr

/-- The Null branch of `Stdio::to_child_stdio` (src/src/stdio.rs lines 68-79)
with Rust's temporary-drop semantics made explicit: the statement
`let fd = File::open(path)?.as_raw_fd();` opens the device, extracts the raw
descriptor number, and then drops the temporary `File` — closing the
descriptor — before `Ok((ChildStdio::Owned(FileDesc::from_raw_fd(fd)), None))`
is built.  Returns the `(child side, parent side)` pair and the new world. -/
def toChildStdNull (readable : Bool) (w : FdWorld) :
    (ChildStdioCfg × Option Unit) × FdWorld :=
  let opened := w.openNull (nullBranchOptsUsed readable)
  let fd := opened.1
  let closed := (opened.2).closeFd fd
  ((ChildStdioCfg.owned fd, none), closed.2)

/-- Dropping a `ChildStdio::Owned(FileDesc)` closes its descriptor (the
`OwnedFd` inside `FileDesc`, src/src/file_desc.rs line 18, closes on drop);
the other variants own nothing.  Returns whether a close was issued on a
still-open descriptor. -/
def dropChildStd (c : ChildStdioCfg) (w : FdWorld) : Option Bool × FdWorld :=
  match c with
  | .owned fd =>
    let r := w.closeFd fd
    (some r.1, r.2)
  | _ => (none, w)

/-! ## The dual-stream drain `read2` (src/src/anon_pipe.rs lines 91-135)

Each pipe is modelled by the full byte sequence its writer will ever produce
(`c1`, `c2`) and a cursor (`pos`) of how much the drain has consumed.  One
`poll` round is a `PollRound`: which of the two descriptors reported revents,
how many bytes the nonblocking `read_to_end` of each delivered before hitting
EWOULDBLOCK/EAGAIN, and whether it instead ran into EOF (in which case it
returns `Ok` having delivered everything remaining — EOF means the writer is
gone, so nothing beyond the recorded content can ever arrive).  Error-free
executions only: `poll` failures and read errors other than
EWOULDBLOCK/EAGAIN propagate out of `read2` via `?` and are outside this
model. -/

/-- One iteration of the `poll` loop as scheduled by the OS. -/
structure PollRound where
  r1 : Bool
  n1 : Nat
  eof1 : Bool
  r2 : Bool
  n2 : Nat
  eof2 : Bool
deriving DecidableEq, Repr

/-- The mutable state of `read2`: consumed cursors, accumulated buffers `v1`
and `v2`, and each end's nonblocking flag. -/
structure Drain2 where
  pos1 : Nat
  pos2 : Nat
  v1 : List Nat
  v2 : List Nat
  nonblocking1 : Bool
  nonblocking2 : Bool
deriving DecidableEq, Repr

/-- The nested `read` helper applied to `p1` when `fds[0].revents != 0`
(src/src/anon_pipe.rs lines 106 and 121-134): a nonblocking `read_to_end` that
either delivers `n1` more bytes and stops at EWOULDBLOCK/EAGAIN (`Ok(false)`),
or reaches EOF after delivering everything remaining (`Ok(true)`). -/
def drainStep1 (c1 : List Nat) (r : PollRound) (s : Drain2) : Drain2 :=
  if r.r1 then
    if r.eof1 then
      { s with v1 := s.v1 ++ c1.drop s.pos1, pos1 := c1.length }
    else
      { s with v1 := s.v1 ++ (c1.drop s.pos1).take r.n1, pos1 := s.pos1 + r.n1 }
  else s

/-- The same helper applied to `p2` when `fds[1].revents != 0`
(src/src/anon_pipe.rs line 110). -/
def drainStep2 (c2 : List Nat) (r : PollRound) (s : Drain2) : Drain2 :=
  if r.r2 then
    if r.eof2 then
      { s with v2 := s.v2 ++ c2.drop s.pos2, pos2 := c2.length }
    else
      { s with v2 := s.v2 ++ (c2.drop s.pos2).take r.n2, pos2 := s.pos2 + r.n2 }
  else s

/-- `p2.set_nonblocking(false)?; return p2.read_to_end(v2)` after `p1` hit EOF
(src/src/anon_pipe.rs lines 107-108): the final blocking drain consumes
everything the writer of `p2` ever produces. -/
def finishDrain2 (c2 : List Nat) (s : Drain2) : Drain2 :=
  { s with
    nonblocking2 := false
    v2 := s.v2 ++ c2.drop s.pos2
    pos2 := c2.length }

/-- `p1.set_nonblocking(false)?; return p1.read_to_end(v1)` after `p2` hit EOF
(src/src/anon_pipe.rs lines 111-112). -/
def finishDrain1 (c1 : List Nat) (s : Drain2) : Drain2 :=
  { s with
    nonblocking1 := false
    v1 := s.v1 ++ c1.drop s.pos1
    pos1 := c1.length }

/-- The `loop` of `read2` (src/src/anon_pipe.rs lines 102-114) over a schedule
of poll rounds.  In each round: if `fds[0]` is ready, drain `p1`; if that
drain reached EOF, flip `p2` to blocking, drain it to completion and return.
Otherwise, if `fds[1]` is ready, drain `p2`; if that reached EOF, flip `p1`
to blocking, drain it to completion and return.  Otherwise poll again.
`none` means the schedule ran out before either stream reached EOF (the loop
is still running). -/
def read2Loop (c1 c2 : List Nat) : List PollRound → Drain2 → Option Drain2
  | [], _ => none
  | r :: rest, s =>
    if r.r1 && r.eof1 then
      some (finishDrain2 c2 (drainStep1 c1 r s))
    else if r.r2 && r.eof2 then
      some (finishDrain1 c1 (drainStep2 c2 r (drainStep1 c1 r s)))
    else
      read2Loop c1 c2 rest (drainStep2 c2 r (drainStep1 c1 r s))

/-- `read2(p1, v1, p2, v2)` (src/src/anon_pipe.rs lines 91-114): both ends are
put into nonblocking mode up front (lines 94-95) and both buffers start from
the empty accumulators `wait_with_output` passes in (src/src/child.rs
line 56), then the poll loop runs. -/
def read2Model (c1 c2 : List Nat) (sched : List PollRound) : Option Drain2 :=
  read2Loop c1 c2 sched
    { pos1 := 0, pos2 := 0, v1 := [], v2 := [],
      nonblocking1 := true, nonblocking2 := true }

/-! ## Helper lemmas -/

/-- A `wait` on a handle with a cached status answers from the cache. -/
theorem wait_cached (p : Process) (st : ExitStatus) (h : p.status = some st)
    (os : Except Int Int) :
    p.wait os = { proc := p, result := .ok st, osWaitCalls := 0 } := by
  unfold Process.wait
  rw [h]

/-- A `try_wait` on a handle with a cached status answers from the cache. -/
theorem try_wait_cached (p : Process) (st : ExitStatus) (h : p.status = some st)
    (os : Except Int (Option Int)) :
    p.try_wait os = { proc := p, result := .ok (some st), osWaitCalls := 0 } := by
  unfold Process.try_wait
  rw [h]

/-- After a `wait` that returned `Ok(st)`, the handle's cache holds `st`. -/
theorem wait_ok_caches (p : Process) (os : Except Int Int) (st : ExitStatus)
    (h : (p.wait os).result = .ok st) : (p.wait os).proc.status = some st := by
  cases hp : p.status with
  | some s =>
    rw [wait_cached p s hp os] at h ⊢
    simp only [Except.ok.injEq] at h
    show p.status = some st
    rw [hp]
    exact congrArg some h
  | none =>
    cases os with
    | error e =>
      have he : p.wait (Except.error e) =
          { proc := p, result := .error e, osWaitCalls := 1 } := by
        unfold Process.wait; rw [hp]
      rw [he] at h
      simp at h
    | ok stv =>
      have he : p.wait (Except.ok stv) =
          { proc := { p with status := some ⟨stv⟩ }, result := .ok ⟨stv⟩,
            osWaitCalls := 1 } := by
        unfold Process.wait; rw [hp]
      rw [he] at h ⊢
      simp only [Except.ok.injEq] at h
      simpa using congrArg some h

/-- `construct_envp` never clears an already-set `saw_nul` flag. -/
theorem construct_envp_mono (env : List (List Nat × List Nat)) :
    (construct_envp env true).2 = true := by
  induction env with
  | nil => rfl
  | cons kv rest ih =>
    simp only [construct_envp]
    split
    · exact ih
    · simpa using ih

/-- `construct_envp` sets the `saw_nul` flag whenever some captured
environment entry serializes to a `NAME=value` byte string with a NUL. -/
theorem construct_envp_sets_nul (env : List (List Nat × List Nat))
    (sawNul : Bool) (kv : List Nat × List Nat) (hmem : kv ∈ env)
    (hnul : (kv.1 ++ [61] ++ kv.2).contains 0 = true) :
    (construct_envp env sawNul).2 = true := by
  induction env with
  | nil => exact absurd hmem (List.not_mem_nil kv)
  | cons hd tl ih =>
    rcases List.mem_cons.mp hmem with heq | hmem2
    · simp only [construct_envp]
      split
      · exact construct_envp_mono tl
      · rename_i hcond
        rw [heq] at hnul
        exact absurd hnul hcond
    · simp only [construct_envp]
      split
      · exact construct_envp_mono tl
      · exact ih hmem2

/-- `capture_env` never clears an already-set `saw_nul` flag. -/
theorem capture_env_mono (c : Cmd) (base : List (List Nat × List Nat))
    (h : c.saw_nul = true) : (c.capture_env base).2 = true := by
  unfold Cmd.capture_env
  cases hc : c.env.capture_if_changed base with
  | none => simpa using h
  | some env => simpa using h ▸ construct_envp_mono env

/-- Writing into slot 0 of a nonempty list puts the new value at the head. -/
theorem set_zero_head {α : Type} (l : List α) (x : α) (h : l ≠ []) :
    (l.set 0 x).head? = some x := by
  cases l with
  | nil => exact absurd rfl h
  | cons a t => rfl

/-! ## Claim theorems -/

/-- C9: `ExitStatus::exit_ok` returns an error for every raw wait-status
value, including a raw status of 0 (normal exit with code 0): the
`c_int::try_from` it matches on is applied to a value that is already a
`c_int`, so it never fails, the `Err`/success branch is unreachable, and no
status value yields `Ok(())`. -/
theorem exit_ok_never_ok :
    (∀ s : ExitStatus, s.exit_ok = Except.error s.raw) ∧
    ExitStatus.exit_ok ⟨0⟩ = Except.error 0 :=
  ⟨fun _ => rfl, rfl⟩

/-- C7: `Process::kill` on a handle whose exit status is already cached
returns the "can't kill an exited process" error without attempting to send
any signal; on an unreaped handle it sends the termination signal and
surfaces any OS failure from that send. -/
theorem kill_reaped_guard (p : Process) (os : Except Int Unit) :
    (p.status.isSome = true →
      p.kill os =
        { result := Except.error KillError.cantKillExited, signalSent := false }) ∧
    (p.status = none →
      (p.kill os).signalSent = true ∧
      (∀ e, os = Except.error e →
        (p.kill os).result = Except.error (KillError.os e)) ∧
      (os = Except.ok () → (p.kill os).result = Except.ok ())) := by
  constructor
  · intro h
    unfold Process.kill
    cases hp : p.status with
    | some s => rfl
    | none => rw [hp] at h; simp at h
  · intro h
    unfold Process.kill
    rw [h]
    refine ⟨?_, ?_, ?_⟩
    · cases os <;> rfl
    · intro e he; rw [he]
    · intro he; rw [he]

/-- C7 witness: a reaped handle refuses to signal; an unreaped handle sends
the signal and surfaces the OS outcome. -/
theorem kill_reaped_guard_witness :
    (Process.kill ⟨7, some ⟨0⟩⟩ (Except.ok ()) =
      { result := Except.error KillError.cantKillExited, signalSent := false }) ∧
    (Process.kill ⟨7, none⟩ (Except.ok ())).signalSent = true :=
  ⟨(kill_reaped_guard ⟨7, some ⟨0⟩⟩ (Except.ok ())).1 rfl,
   ((kill_reaped_guard ⟨7, none⟩ (Except.ok ())).2 rfl).1⟩

/-- C6: `wait` is idempotent: once a `wait` has returned an `ExitStatus`,
every subsequent `wait` on the same handle returns the identical status with
no further OS wait call, and `try_wait` called after such a cached `wait`
returns `Some` of that same status immediately (zero OS calls, no blocking). -/
theorem wait_idempotent (p : Process) (os1 : Except Int Int) (st : ExitStatus)
    (h : (p.wait os1).result = Except.ok st) :
    (∀ os2 : Except Int Int,
      (p.wait os1).proc.wait os2 =
        { proc := (p.wait os1).proc, result := Except.ok st, osWaitCalls := 0 }) ∧
    (∀ os2 : Except Int (Option Int),
      (p.wait os1).proc.try_wait os2 =
        { proc := (p.wait os1).proc, result := Except.ok (some st),
          osWaitCalls := 0 }) := by
  have hc := wait_ok_caches p os1 st h
  exact ⟨fun os2 => wait_cached _ st hc os2, fun os2 => try_wait_cached _ st hc os2⟩

/-- C6 witness: a fresh handle reaped with raw status 0 caches `⟨0⟩`, and both
a second `wait` and a `try_wait` answer from the cache with zero OS calls. -/
theorem wait_idempotent_witness :
    ((Process.wait ⟨5, none⟩ (Except.ok 0)).result = Except.ok ⟨0⟩) ∧
    ((Process.wait ⟨5, none⟩ (Except.ok 0)).proc.wait (Except.error 10) =
      { proc := (Process.wait ⟨5, none⟩ (Except.ok 0)).proc,
        result := Except.ok ⟨0⟩, osWaitCalls := 0 }) ∧
    ((Process.wait ⟨5, none⟩ (Except.ok 0)).proc.try_wait (Except.error 10) =
      { proc := (Process.wait ⟨5, none⟩ (Except.ok 0)).proc,
        result := Except.ok (some ⟨0⟩), osWaitCalls := 0 }) :=
  ⟨rfl,
   (wait_idempotent ⟨5, none⟩ (Except.ok 0) ⟨0⟩ rfl).1 (Except.error 10),
   (wait_idempotent ⟨5, none⟩ (Except.ok 0) ⟨0⟩ rfl).2 (Except.error 10)⟩

/-- C3 (code bug): routing a `Null` stdio configuration opens the null device
with `File::open` — read-only access — regardless of `is_input`, because the
`OpenOptions` value the branch builds (read if `is_input`, write otherwise) is
discarded; at the failing input `readable = false` (stdout/stderr) the claim
requires write-only access but the open used grants no write access. -/
theorem null_route_access_bug :
    nullBranchOptsUsed false = fileOpenAccess ∧
    (nullBranchOptsUsed false).writeAccess = false ∧
    nullBranchOptsBuilt false = { readAccess := false, writeAccess := true } ∧
    nullBranchOptsBuilt false ≠ nullBranchOptsUsed false ∧
    nullBranchOptsUsed true = nullBranchOptsUsed false := by
  refine ⟨rfl, rfl, by decide, by decide, rfl⟩

/-- C1 (code bug): when `do_exec` fails in the forked child (here with
errno 8), the child path of `spawn` performs no write to the control pipe —
it panics instead of encoding the 4-byte big-endian errno plus the 4-byte
`NOEX` marker — so the parent's read loop observes EOF (a 0-byte read) and
returns success for a child whose exec failed. -/
theorem child_exec_error_not_relayed :
    (spawnChildOnExecError 8).pipeWrites = [] ∧
    (spawnChildOnExecError 8).panicked = true ∧
    parentControlLoop [ControlRead.ok []] = SpawnOutcome.success := by
  refine ⟨rfl, rfl, rfl⟩

/-- C4 counterexample: an 8-byte control-pipe message whose trailing 4 bytes
do not match the `NOEX` marker makes the parent loop panic **without** first
reaping the child (`assert_eq!` fires before `p.wait()`), refuting the
claim's "escalated as an unrecoverable internal fault after reaping the
child" for the marker-mismatch case. -/
theorem parent_loop_mismatch_no_reap :
    parentControlLoop [ControlRead.ok [0, 0, 0, 1, 9, 9, 9, 9]] =
      SpawnOutcome.panicFooterMismatch false := by
  decide

/-- C2 counterexample: with an argument containing an embedded NUL the
malformed-input flag is set, yet `spawn` proceeds to the fork (its
`if self.saw_nul()` branch body is empty) instead of reporting malformed
input as the failure. -/
theorem spawn_ignores_nul_flag :
    ((Cmd.new [97] []).arg [0, 98]).saw_nul = true ∧
    spawnPreFork ((Cmd.new [97] []).arg [0, 98]) [] (Except.ok ()) (Except.ok ()) =
      PreFork.proceedToFork none := by
  decide

/-- C2 (amended): embedded NULs in any argument, name, environment entry or
working-directory string are recorded in the malformed-input flag rather than
failing immediately — for arguments, the program name and the working
directory at builder time, and for environment entries during environment
capture (`construct_envp`); `spawn` reads the flag before the fork but never
reports malformed input as the failure (its check has an empty body, so it
proceeds to fork), and only the `exec` method reports the malformed-input
error when the flag is set after environment capture — both for a flag set at
builder time and for one set by a NUL-carrying captured environment entry. -/
theorem nul_flag_recorded_spawn_proceeds (c : Cmd)
    (base : List (List Nat × List Nat)) (sres pres : Except Int Unit) :
    (∀ a, a.contains 0 = true → (c.arg a).saw_nul = true) ∧
    (∀ d, d.contains 0 = true → (c.with_cwd d).saw_nul = true) ∧
    (∀ name code, name.contains 0 = true → (Cmd.new name code).saw_nul = true) ∧
    spawnPreFork c base sres pres ≠ PreFork.fail SpawnErr.malformedInput ∧
    (c.saw_nul = true → execNulGate c base = ExecGate.nulError) ∧
    (∀ env kv, c.env.capture_if_changed base = some env → kv ∈ env →
      (kv.1 ++ [61] ++ kv.2).contains 0 = true →
      (c.capture_env base).2 = true ∧ execNulGate c base = ExecGate.nulError) := by
  refine ⟨?_, ?_, ?_, ?_, ?_, ?_⟩
  · intro a ha
    simp at ha
    simp [Cmd.arg, os2c, ha]
  · intro d hd
    simp at hd
    simp [Cmd.with_cwd, os2c, hd]
  · intro name code hn
    simp at hn
    simp [Cmd.new, os2c, hn]
  · unfold spawnPreFork
    cases sres with
    | error e => simp
    | ok u =>
      cases pres with
      | error e => simp
      | ok v => simp
  · intro hs
    simp [execNulGate, capture_env_mono c base hs]
  · intro env kv hcap hmem hnul
    have h2 : (c.capture_env base).2 = true := by
      unfold Cmd.capture_env
      rw [hcap]
      exact construct_envp_sets_nul env c.saw_nul kv hmem hnul
    exact ⟨h2, by simp [execNulGate, h2]⟩

/-- C2 witness: a NUL-carrying argument sets the flag, `spawn` still proceeds
to the fork, `exec` reports the NUL error for the same command, and a command
whose environment diff carries a NUL-containing value has the flag set during
capture and also trips `exec`'s gate. -/
theorem nul_flag_recorded_spawn_proceeds_witness :
    ((Cmd.new [97] []).arg [0, 98]).saw_nul = true ∧
    spawnPreFork ((Cmd.new [97] []).arg [0, 98]) [] (Except.ok ()) (Except.ok ()) ≠
      PreFork.fail SpawnErr.malformedInput ∧
    execNulGate ((Cmd.new [97] []).arg [0, 98]) [] = ExecGate.nulError ∧
    (((Cmd.new [97] []).env_set [107] [0, 118]).capture_env []).2 = true ∧
    execNulGate ((Cmd.new [97] []).env_set [107] [0, 118]) [] = ExecGate.nulError :=
  ⟨(nul_flag_recorded_spawn_proceeds (Cmd.new [97] []) [] (Except.ok ())
      (Except.ok ())).1 [0, 98] (by decide),
   (nul_flag_recorded_spawn_proceeds ((Cmd.new [97] []).arg [0, 98]) []
      (Except.ok ()) (Except.ok ())).2.2.2.1,
   (nul_flag_recorded_spawn_proceeds ((Cmd.new [97] []).arg [0, 98]) []
      (Except.ok ()) (Except.ok ())).2.2.2.2.1 (by decide),
   ((nul_flag_recorded_spawn_proceeds ((Cmd.new [97] []).env_set [107] [0, 118])
      [] (Except.ok ()) (Except.ok ())).2.2.2.2.2 [([107], [0, 118])]
      ([107], [0, 118]) (by decide) (by decide) (by decide)).1,
   ((nul_flag_recorded_spawn_proceeds ((Cmd.new [97] []).env_set [107] [0, 118])
      [] (Except.ok ()) (Except.ok ())).2.2.2.2.2 [([107], [0, 118])]
      ([107], [0, 118]) (by decide) (by decide) (by decide)).2⟩

/-- C4 (amended): the parent control-pipe loop retries on interrupted reads;
EOF (0 bytes) yields the success return; an 8-byte message with the `NOEX`
marker yields the decoded big-endian OS error after reaping the child; an
8-byte message with a wrong marker panics **without** reaping the child (the
footer assertion fires before `p.wait()`); any other byte count and any other
read error are escalated after reaping the child. -/
theorem parent_loop_amended (rest : List ControlRead) (bytes : List Nat)
    (e : Int) :
    parentControlLoop (ControlRead.interrupted :: rest) = parentControlLoop rest ∧
    parentControlLoop (ControlRead.ok [] :: rest) = SpawnOutcome.success ∧
    (bytes.length = 8 → bytes.drop 4 = CLOEXEC_MSG_FOOTER →
      parentControlLoop (ControlRead.ok bytes :: rest) =
        SpawnOutcome.execError (i32FromBeBytes (bytes.take 4)) true) ∧
    (bytes.length = 8 → bytes.drop 4 ≠ CLOEXEC_MSG_FOOTER →
      parentControlLoop (ControlRead.ok bytes :: rest) =
        SpawnOutcome.panicFooterMismatch false) ∧
    (bytes.length ≠ 0 → bytes.length ≠ 8 →
      parentControlLoop (ControlRead.ok bytes :: rest) =
        SpawnOutcome.panicShortRead true) ∧
    parentControlLoop (ControlRead.err e :: rest) =
      SpawnOutcome.panicPipeError e true := by
  refine ⟨rfl, rfl, ?_, ?_, ?_, rfl⟩
  · intro h8 hf
    simp [parentControlLoop, h8, hf]
  · intro h8 hf
    simp [parentControlLoop, h8, hf]
  · intro h0 h8
    simp [parentControlLoop, h0, h8]

/-- C4 witness: concrete messages exercising the matching-footer reap, the
mismatching-footer no-reap panic, and the short-read reap-then-panic arms. -/
theorem parent_loop_amended_witness :
    parentControlLoop [ControlRead.ok [0, 0, 0, 5, 78, 79, 69, 88]] =
      SpawnOutcome.execError
        (i32FromBeBytes (([0, 0, 0, 5, 78, 79, 69, 88] : List Nat).take 4)) true ∧
    parentControlLoop [ControlRead.ok [0, 0, 0, 5, 9, 9, 9, 9]] =
      SpawnOutcome.panicFooterMismatch false ∧
    parentControlLoop [ControlRead.ok [1, 2, 3]] =
      SpawnOutcome.panicShortRead true :=
  ⟨(parent_loop_amended [] [0, 0, 0, 5, 78, 79, 69, 88] 0).2.2.1
      (by decide) (by decide),
   (parent_loop_amended [] [0, 0, 0, 5, 9, 9, 9, 9] 0).2.2.2.1
      (by decide) (by decide),
   (parent_loop_amended [] [1, 2, 3] 0).2.2.2.2.1 (by decide) (by decide)⟩

/-- C10: `set_program` replaces element 0 of both `argv` and `args` but
leaves the stored `program` field unchanged, so afterwards `get_argv()[0]` is
the new name while `get_program_cstr()` and `program_is_path()` still reflect
the construction-time name; `code`, `env`, `cwd` and the three stdio
configurations are untouched. -/
theorem set_program_frame (c : Cmd) (name : List Nat)
    (hname : name.contains 0 = false) (hargv : c.argv ≠ []) (hargs : c.args ≠ []) :
    (c.set_program name).get_argv.head? = some name ∧
    (c.set_program name).args.head? = some name ∧
    (c.set_program name).program = c.program ∧
    (c.set_program name).get_program_cstr = c.get_program_cstr ∧
    (c.set_program name).program_is_path = c.program_is_path ∧
    (c.set_program name).code = c.code ∧
    (c.set_program name).env = c.env ∧
    (c.set_program name).cwd = c.cwd ∧
    (c.set_program name).stdin_cfg = c.stdin_cfg ∧
    (c.set_program name).stdout_cfg = c.stdout_cfg ∧
    (c.set_program name).stderr_cfg = c.stderr_cfg := by
  have hos : os2c name c.saw_nul = (name, c.saw_nul) := by
    have h0 : 0 ∉ name := by simpa using hname
    simp [os2c, h0]
  have hset : c.set_program name =
      { c with argv := c.argv.set 0 name, args := c.args.set 0 name } := by
    simp only [Cmd.set_program]
    rw [hos]
  refine ⟨?_, ?_, ?_, ?_, ?_, ?_, ?_, ?_, ?_, ?_, ?_⟩ <;> rw [hset]
  · exact set_zero_head _ _ hargv
  · exact set_zero_head _ _ hargs
  · rfl
  · rfl

/-- C10 witness: a concrete command renamed via `set_program` exposes the new
argv head while the program field and its derived facts are unchanged. -/
theorem set_program_frame_witness :
    ((Cmd.new [99] [1]).set_program [47, 98]).get_argv.head? = some [47, 98] ∧
    ((Cmd.new [99] [1]).set_program [47, 98]).program = (Cmd.new [99] [1]).program ∧
    ((Cmd.new [99] [1]).set_program [47, 98]).program_is_path =
      (Cmd.new [99] [1]).program_is_path :=
  ⟨(set_program_frame (Cmd.new [99] [1]) [47, 98] (by decide) (by decide)
      (by decide)).1,
   (set_program_frame (Cmd.new [99] [1]) [47, 98] (by decide) (by decide)
      (by decide)).2.2.1,
   (set_program_frame (Cmd.new [99] [1]) [47, 98] (by decide) (by decide)
      (by decide)).2.2.2.2.1⟩

/-- C8: in the Null branch of `Stdio::to_child_stdio` the temporary `File`
owning the null-device descriptor is dropped — closing the descriptor —
within the statement that extracts its raw fd, so the returned
`ChildStdio::Owned` wraps a descriptor that is already closed when the branch
returns (no parent-side object is produced), and dropping the wrapping
`FileDesc` closes the same descriptor number a second time. -/
theorem null_route_double_close (w : FdWorld) (readable : Bool)
    (hfresh : ∀ n ∈ w.openFds, n < w.nextFd) :
    ∃ fd,
      (toChildStdNull readable w).1.1 = ChildStdioCfg.owned fd ∧
      (toChildStdNull readable w).1.2 = none ∧
      (toChildStdNull readable w).2.openFds.contains fd = false ∧
      (dropChildStd (toChildStdNull readable w).1.1
        (toChildStdNull readable w).2).1 = some false ∧
      (dropChildStd (toChildStdNull readable w).1.1
          (toChildStdNull readable w).2).2.events =
        w.events ++ [FdEvent.openEv fd, FdEvent.closeEv fd, FdEvent.closeEv fd] := by
  have hnot : w.nextFd ∉ w.openFds := fun hmem =>
    absurd (hfresh w.nextFd hmem) (lt_irrefl _)
  have herase : (w.openFds ++ [w.nextFd]).erase w.nextFd = w.openFds := by
    rw [List.erase_append_right _ hnot]
    simp
  have hcont : w.openFds.contains w.nextFd = false := by
    simp only [List.contains, List.elem_eq_mem]
    exact decide_eq_false hnot
  refine ⟨w.nextFd, rfl, rfl, ?_, ?_, ?_⟩ <;>
    simp [toChildStdNull, FdWorld.openNull, FdWorld.closeFd, dropChildStd,
      herase, hcont] <;>
    exact hnot

/-- C8 witness: in a world with the three standard descriptors open and fd 3
fresh, the Null branch returns `Owned(3)` with fd 3 already closed, and the
wrapper's drop closes fd 3 a second time. -/
theorem null_route_double_close_witness :
    ∃ fd,
      (toChildStdNull true ⟨3, [0, 1, 2], []⟩).1.1 = ChildStdioCfg.owned fd ∧
      (toChildStdNull true ⟨3, [0, 1, 2], []⟩).1.2 = none ∧
      (toChildStdNull true ⟨3, [0, 1, 2], []⟩).2.openFds.contains fd = false ∧
      (dropChildStd (toChildStdNull true ⟨3, [0, 1, 2], []⟩).1.1
        (toChildStdNull true ⟨3, [0, 1, 2], []⟩).2).1 = some false ∧
      (dropChildStd (toChildStdNull true ⟨3, [0, 1, 2], []⟩).1.1
          (toChildStdNull true ⟨3, [0, 1, 2], []⟩).2).2.events =
        ([] : List FdEvent) ++ [FdEvent.openEv fd, FdEvent.closeEv fd, FdEvent.closeEv fd] :=
  null_route_double_close ⟨3, [0, 1, 2], []⟩ true (by decide)

/-- A nonblocking drain of the stdout side keeps `v1` a prefix of `c1` at
cursor `pos1` and leaves the stderr side and both mode flags unchanged. -/
theorem drainStep1_inv (c1 : List Nat) (r : PollRound) (s : Drain2)
    (h : s.v1 = c1.take s.pos1) :
    (drainStep1 c1 r s).v1 = c1.take (drainStep1 c1 r s).pos1 ∧
    (drainStep1 c1 r s).v2 = s.v2 ∧
    (drainStep1 c1 r s).pos2 = s.pos2 ∧
    (drainStep1 c1 r s).nonblocking1 = s.nonblocking1 ∧
    (drainStep1 c1 r s).nonblocking2 = s.nonblocking2 := by
  unfold drainStep1
  split
  · split
    · refine ⟨?_, rfl, rfl, rfl, rfl⟩
      show s.v1 ++ c1.drop s.pos1 = c1.take c1.length
      rw [List.take_length, h, List.take_append_drop]
    · refine ⟨?_, rfl, rfl, rfl, rfl⟩
      show s.v1 ++ (c1.drop s.pos1).take r.n1 = c1.take (s.pos1 + r.n1)
      rw [List.take_add, h]
  · exact ⟨h, rfl, rfl, rfl, rfl⟩

/-- A nonblocking drain of the stderr side keeps `v2` a prefix of `c2` at
cursor `pos2` and leaves the stdout side and both mode flags unchanged. -/
theorem drainStep2_inv (c2 : List Nat) (r : PollRound) (s : Drain2)
    (h : s.v2 = c2.take s.pos2) :
    (drainStep2 c2 r s).v2 = c2.take (drainStep2 c2 r s).pos2 ∧
    (drainStep2 c2 r s).v1 = s.v1 ∧
    (drainStep2 c2 r s).pos1 = s.pos1 ∧
    (drainStep2 c2 r s).nonblocking1 = s.nonblocking1 ∧
    (drainStep2 c2 r s).nonblocking2 = s.nonblocking2 := by
  unfold drainStep2
  split
  · split
    · refine ⟨?_, rfl, rfl, rfl, rfl⟩
      show s.v2 ++ c2.drop s.pos2 = c2.take c2.length
      rw [List.take_length, h, List.take_append_drop]
    · refine ⟨?_, rfl, rfl, rfl, rfl⟩
      show s.v2 ++ (c2.drop s.pos2).take r.n2 = c2.take (s.pos2 + r.n2)
      rw [List.take_add, h]
  · exact ⟨h, rfl, rfl, rfl, rfl⟩

/-- A ready stdout drain that reaches EOF leaves `v1` holding all of `c1`. -/
theorem drainStep1_eof (c1 : List Nat) (r : PollRound) (s : Drain2)
    (h : s.v1 = c1.take s.pos1) (hr : r.r1 = true) (he : r.eof1 = true) :
    (drainStep1 c1 r s).v1 = c1 := by
  unfold drainStep1
  rw [hr, he]
  show s.v1 ++ c1.drop s.pos1 = c1
  rw [h, List.take_append_drop]

/-- A ready stderr drain that reaches EOF leaves `v2` holding all of `c2`. -/
theorem drainStep2_eof (c2 : List Nat) (r : PollRound) (s : Drain2)
    (h : s.v2 = c2.take s.pos2) (hr : r.r2 = true) (he : r.eof2 = true) :
    (drainStep2 c2 r s).v2 = c2 := by
  unfold drainStep2
  rw [hr, he]
  show s.v2 ++ c2.drop s.pos2 = c2
  rw [h, List.take_append_drop]

/-- Loop invariant for `read2Loop`: from any state whose buffers are the
consumed prefixes, a terminating run returns both streams complete and has
flipped the stream that did not hit EOF first back to blocking mode. -/
theorem read2Loop_complete (c1 c2 : List Nat) :
    ∀ (sched : List PollRound) (s out : Drain2),
      s.v1 = c1.take s.pos1 → s.v2 = c2.take s.pos2 →
      read2Loop c1 c2 sched s = some out →
      out.v1 = c1 ∧ out.v2 = c2 ∧
      (out.nonblocking1 = false ∨ out.nonblocking2 = false) := by
  intro sched
  induction sched with
  | nil =>
    intro s out h1 h2 hl
    exact absurd hl (by simp [read2Loop])
  | cons r rest ih =>
    intro s out h1 h2 hl
    unfold read2Loop at hl
    split at hl
    case isTrue hc =>
      obtain ⟨hr, he⟩ : r.r1 = true ∧ r.eof1 = true := by simpa using hc
      simp only [Option.some.injEq] at hl
      subst hl
      have hi := drainStep1_inv c1 r s h1
      refine ⟨?_, ?_, Or.inr rfl⟩
      · show (drainStep1 c1 r s).v1 = c1
        exact drainStep1_eof c1 r s h1 hr he
      · show (drainStep1 c1 r s).v2 ++ c2.drop (drainStep1 c1 r s).pos2 = c2
        rw [hi.2.1, hi.2.2.1, h2, List.take_append_drop]
    case isFalse hc =>
      split at hl
      case isTrue hc2 =>
        obtain ⟨hr, he⟩ : r.r2 = true ∧ r.eof2 = true := by simpa using hc2
        simp only [Option.some.injEq] at hl
        subst hl
        have hi1 := drainStep1_inv c1 r s h1
        have hi2 := drainStep2_inv c2 r (drainStep1 c1 r s) (by rw [hi1.2.1, hi1.2.2.1]; exact h2)
        refine ⟨?_, ?_, Or.inl rfl⟩
        · show (drainStep2 c2 r (drainStep1 c1 r s)).v1 ++
            c1.drop (drainStep2 c2 r (drainStep1 c1 r s)).pos1 = c1
          rw [hi2.2.1, hi2.2.2.1, hi1.1, List.take_append_drop]
        · show (drainStep2 c2 r (drainStep1 c1 r s)).v2 = c2
          exact drainStep2_eof c2 r (drainStep1 c1 r s)
            (by rw [hi1.2.1, hi1.2.2.1]; exact h2) hr he
      case isFalse hc2 =>
        have hi1 := drainStep1_inv c1 r s h1
        have hi2 := drainStep2_inv c2 r (drainStep1 c1 r s) (by rw [hi1.2.1, hi1.2.2.1]; exact h2)
        exact ih _ out (by rw [hi2.2.1, hi2.2.2.1]; exact hi1.1) hi2.1 hl

/-- C5: with both stdout and stderr piped, `read2` (as used by
`wait_with_output`) puts both ends into nonblocking mode, polls with no
timeout draining whichever end is ready (EAGAIN/EWOULDBLOCK meaning "no more
data right now"), and on any schedule on which it returns, whichever stream
hit EOF first, the other has been flipped back to blocking mode and both
accumulated buffers are complete: they equal the full contents the two
writers ever produced. -/
theorem read2_complete (c1 c2 : List Nat) (sched : List PollRound)
    (out : Drain2) (h : read2Model c1 c2 sched = some out) :
    out.v1 = c1 ∧ out.v2 = c2 ∧
    (out.nonblocking1 = false ∨ out.nonblocking2 = false) :=
  read2Loop_complete c1 c2 sched _ out (by simp) (by simp) h

/-- C5 witness: a schedule in which stdout delivers two bytes, stderr one,
and stdout then reaches EOF; the run returns with stdout = `[1,2,3]`,
stderr = `[4,5]`, and stderr flipped back to blocking. -/
theorem read2_complete_witness :
    read2Model [1, 2, 3] [4, 5]
        [⟨true, 2, false, true, 1, false⟩, ⟨true, 0, true, false, 0, false⟩] =
      some ⟨3, 2, [1, 2, 3], [4, 5], true, false⟩ ∧
    ((⟨3, 2, [1, 2, 3], [4, 5], true, false⟩ : Drain2).v1 = [1, 2, 3] ∧
      (⟨3, 2, [1, 2, 3], [4, 5], true, false⟩ : Drain2).v2 = [4, 5] ∧
      ((⟨3, 2, [1, 2, 3], [4, 5], true, false⟩ : Drain2).nonblocking1 = false ∨
        (⟨3, 2, [1, 2, 3], [4, 5], true, false⟩ : Drain2).nonblocking2 = false)) :=
  ⟨by decide,
   read2_complete [1, 2, 3] [4, 5]
     [⟨true, 2, false, true, 1, false⟩, ⟨true, 0, true, false, 0, false⟩]
     ⟨3, 2, [1, 2, 3], [4, 5], true, false⟩ (by decide)⟩

end MemfdExec
